import Mathlib

/-!
Verification development for the local forwarding HTTP/HTTPS proxy
(`local_proxy.py`).  The definitions below are a shallow embedding of the
relevant parts of the source: the header filter and Python-dict update
semantics (`_filter_headers`), upstream Basic-auth header construction
(`_get_upstream_auth_header`), the plain-HTTP forwarding prelude
(`_forward_request` up to the Content-Length read), the CONNECT response
check and the select-based tunnel relay loop (`do_CONNECT`), environment
port resolution (`LocalProxyRunner.__init__`), and runner shutdown
(`LocalProxyRunner.stop`).
-/

/-- Python `str.lower` restricted to ASCII characters, as applied to header
names by `_filter_headers`. -/
def pyLower (s : String) : String := String.mk (s.data.map Char.toLower)

/-- Header maps are modelled as association lists of (name, value) pairs in
insertion order.  The inbound `self.headers` object may carry duplicate
names; the outbound Python `dict` collapses exact-key duplicates. -/
abbrev Headers := List (String × String)

/-- Python dict assignment `d[k] = v`: when `k` is already a key the value is
replaced in place (the entry keeps its position); otherwise the new pair is
appended at the end. -/
def dictSet (m : Headers) (k v : String) : Headers :=
  if k ∈ m.map Prod.fst then
    m.map (fun p => if p.1 = k then (k, v) else p)
  else m ++ [(k, v)]

/-- The eight hop-by-hop header names removed by `_filter_headers`
(source lines 80-84), already lower-case as in the source set literal. -/
def hopByHopHeaders : List String :=
  ["connection", "keep-alive", "proxy-authenticate", "proxy-authorization",
   "te", "trailers", "transfer-encoding", "upgrade"]

/-- The six identity-revealing header names removed by `_filter_headers`
(source lines 86-89). -/
def ipRevealingHeaders : List String :=
  ["x-forwarded-for", "x-forwarded-host", "x-forwarded-proto",
   "x-real-ip", "via", "forwarded"]

/-- The drop test of the copy loop in `_filter_headers`:
`lower_key in hop_by_hop_headers or lower_key in ip_revealing_headers`. -/
def isDroppedHeader (k : String) : Bool :=
  decide (pyLower k ∈ hopByHopHeaders) || decide (pyLower k ∈ ipRevealingHeaders)

/-- Characters that may appear in a URL scheme after the leading letter,
following CPython `urllib.parse` scheme validation. -/
def isSchemeTailChar (c : Char) : Bool :=
  c.isAlphanum || c = '+' || c = '-' || c = '.'

/-- A candidate scheme is valid when non-empty, led by a letter, with only
scheme characters after it. -/
def validSchemeChars : List Char → Bool
  | [] => false
  | c :: rest => c.isAlpha && rest.all isSchemeTailChar

/-- Split a URL character list into (scheme, remainder after the colon),
returning an empty scheme and the whole input when no valid scheme-colon
leads the URL, as CPython `urlsplit` does. -/
def splitSchemeRest (l : List Char) : List Char × List Char :=
  match l.findIdx? (fun c => c = ':') with
  | some i => if validSchemeChars (l.take i) then (l.take i, l.drop (i + 1)) else ([], l)
  | none => ([], l)

/-- Take characters up to the first netloc delimiter, mirroring CPython
`_splitnetloc` which ends the netloc at the first of `/`, `?` or `#`. -/
def takeUntilDelim : List Char → List Char
  | [] => []
  | c :: rest => if c = '/' ∨ c = '?' ∨ c = '#' then [] else c :: takeUntilDelim rest

/-- `urlparse(url).scheme`, lower-cased as CPython does. -/
def urlScheme (u : String) : String :=
  String.mk ((splitSchemeRest u.data).1.map Char.toLower)

/-- `urlparse(url).netloc`: present only when the remainder after the scheme
starts with a double slash. -/
def urlNetloc (u : String) : String :=
  match (splitSchemeRest u.data).2 with
  | '/' :: '/' :: rest => String.mk (takeUntilDelim rest)
  | _ => ""

/-- The copy loop of `_filter_headers` (source lines 91-94): fold the
inbound items into a fresh dict, skipping dropped names. -/
def filterFold (incoming : Headers) : Headers :=
  incoming.foldl
    (fun acc kv => if isDroppedHeader kv.1 then acc else dictSet acc kv.1 kv.2) []

/-- `_filter_headers(incoming_headers)` for a handler whose `self.path` is
`path`: copy non-dropped headers, then force `Host` to the target netloc
when the request target is an absolute URL with a network location
(source lines 96-106; the `elif`/`else` arms leave the dict unchanged). -/
def filterHeaders (path : String) (incoming : Headers) : Headers :=
  let outgoing := filterFold incoming
  let netloc := urlNetloc path
  if netloc ≠ "" then dictSet outgoing "Host" netloc else outgoing

/-- Python truthiness of an optional string (`None` and the empty string are
falsy), as used by `if user and pwd:`. -/
def pyTruthy : Option String → Bool
  | none => false
  | some s => !s.isEmpty

/-- UTF-8 encoding of one character, byte values as naturals. -/
def utf8EncodeChar (c : Char) : List Nat :=
  let n := c.toNat
  if n < 128 then [n]
  else if n < 2048 then [192 + n / 64, 128 + n % 64]
  else if n < 65536 then [224 + n / 4096, 128 + (n / 64) % 64, 128 + n % 64]
  else [240 + n / 262144, 128 + (n / 4096) % 64, 128 + (n / 64) % 64, 128 + n % 64]

/-- UTF-8 encoding of a string, as `credentials.encode(utf-8)` produces. -/
def utf8Encode (s : String) : List Nat := (s.data.map utf8EncodeChar).flatten

/-- The base64 alphabet. -/
def b64Chars : List Char :=
  ("ABCDEFGHIJKLMNOPQRSTUVWXYZabcdefghijklmnopqrstuvwxyz0123456789+/").data

/-- Index into the base64 alphabet. -/
def b64CharAt (n : Nat) : Char := b64Chars.getD n '='

/-- Standard base64 encoding of a byte list, as `base64.b64encode`. -/
def b64Encode : List Nat → List Char
  | b1 :: b2 :: b3 :: rest =>
      b64CharAt (b1 / 4) :: b64CharAt ((b1 % 4) * 16 + b2 / 16) ::
      b64CharAt ((b2 % 16) * 4 + b3 / 64) :: b64CharAt (b3 % 64) :: b64Encode rest
  | [b1, b2] =>
      [b64CharAt (b1 / 4), b64CharAt ((b1 % 4) * 16 + b2 / 16), b64CharAt ((b2 % 16) * 4), '=']
  | [b1] =>
      [b64CharAt (b1 / 4), b64CharAt ((b1 % 4) * 16), '=', '=']
  | [] => []

/-- `_get_upstream_auth_header` (source lines 58-69): returns the
`Basic base64(user:pwd)` value exactly when both the username and the
password are truthy (set and non-empty); otherwise `None`. -/
def getUpstreamAuthHeader (user pwd : Option String) : Option String :=
  if pyTruthy user && pyTruthy pwd then
    some ("Basic " ++
      String.mk (b64Encode (utf8Encode ((user.getD "") ++ ":" ++ (pwd.getD "")))))
  else none

/-- The warning branch of `_get_upstream_auth_header`: the `elif user:` arm
logs a warning when the username is truthy but the pair check failed. -/
def upstreamAuthWarning (user pwd : Option String) : Bool :=
  !(pyTruthy user && pyTruthy pwd) && pyTruthy user

/-- The outgoing-header construction of `_forward_request` (lines 128-132):
filtered headers, plus a `Proxy-Authorization` entry exactly when
`_get_upstream_auth_header` returned a (necessarily truthy) value. -/
def forwardOutgoingHeaders (path : String) (incoming : Headers)
    (user pwd : Option String) : Headers :=
  let outgoing := filterHeaders path incoming
  match getUpstreamAuthHeader user pwd with
  | some a => dictSet outgoing "Proxy-Authorization" a
  | none => outgoing

/-- The upstream CONNECT request text built at source lines 261-270:
request line, `Host` header, optional `Proxy-Authorization`, blank line. -/
def buildConnectRequest (targetHost : String) (targetPort : Int)
    (user pwd : Option String) : String :=
  let base := "CONNECT " ++ targetHost ++ ":" ++ toString targetPort ++ " HTTP/1.1\r\n" ++
              "Host: " ++ targetHost ++ ":" ++ toString targetPort ++ "\r\n"
  let withAuth :=
    match getUpstreamAuthHeader user pwd with
    | some a => base ++ "Proxy-Authorization: " ++ a ++ "\r\n"
    | none => base
  withAuth ++ "\r\n"

/-- Python whitespace characters stripped by `int()` before parsing. -/
def pyIsSpace (c : Char) : Bool :=
  c = ' ' ∨ c = '\t' ∨ c = '\n' ∨ c = '\r' ∨ c = '\x0b' ∨ c = '\x0c'

/-- Strip leading and trailing whitespace from a character list. -/
def pyStripChars (l : List Char) : List Char :=
  ((l.dropWhile pyIsSpace).reverse.dropWhile pyIsSpace).reverse

/-- Digit-run parser for Python `int()`: digits with single underscores
allowed only between digits.  The flag records whether the previous
character was a digit. -/
def intDigitsAux : List Char → Nat → Bool → Option Nat
  | [], acc, lastDigit => if lastDigit then some acc else none
  | c :: rest, acc, lastDigit =>
      if c.isDigit then intDigitsAux rest (acc * 10 + (c.toNat - 48)) true
      else if c = '_' ∧ lastDigit then intDigitsAux rest acc false
      else none

/-- Parse a non-empty decimal digit run (with legal underscores). -/
def intDigits (l : List Char) : Option Nat := intDigitsAux l 0 false

/-- Python `int(s)` on a string: strip whitespace, optional sign, decimal
digits; `None` models a raised `ValueError`. -/
def pythonInt (s : String) : Option Int :=
  match pyStripChars s.data with
  | '+' :: rest => (intDigits rest).map Int.ofNat
  | '-' :: rest => (intDigits rest).map (fun n => -(n : Int))
  | l => (intDigits l).map Int.ofNat

/-- Case-insensitive header lookup, as `email.message.Message.get` used by
`self.headers.get` (first matching entry wins). -/
def headersGetCI (hs : Headers) (name : String) : Option String :=
  (hs.find? (fun p => decide (pyLower p.1 = pyLower name))).map Prod.snd

/-- Observable outcome of the prefix of `_forward_request` up to the
`Content-Length` read (source lines 115-145). -/
inductive ForwardOutcome where
  | errorWritten (code : Nat)
  | raised
  | proceeded (contentLength : Int)
  deriving DecidableEq

/-- `_forward_request` up to and including
`content_length = int(self.headers.get(Content-Length, 0))` (line 136):
non-absolute target URLs get a 400 first; a present but unparseable
`Content-Length` value makes the bare `int(...)` call raise outside any
try block, so no error response is written. -/
def forwardRequestPhase1 (path : String) (hs : Headers) : ForwardOutcome :=
  if urlScheme path = "" ∨ urlNetloc path = "" then .errorWritten 400
  else
    match headersGetCI hs "Content-Length" with
    | none => .proceeded 0
    | some v =>
      match pythonInt v with
      | some n => .proceeded n
      | none => .raised

/-- Prefix-of test on character lists. -/
def leadsWith : List Char → List Char → Bool
  | [], _ => true
  | _ :: _, [] => false
  | a :: as, b :: bs => a = b && leadsWith as bs

/-- Substring containment on character lists, modelling the Python `in`
operator on strings. -/
def containsSub (needle : List Char) : List Char → Bool
  | [] => leadsWith needle []
  | c :: rest => leadsWith needle (c :: rest) || containsSub needle rest

/-- Everything before the first CRLF, modelling
`response_str.split(chr(13) ++ chr(10))[0]`. -/
def takeUntilCRLF : List Char → List Char
  | [] => []
  | '\r' :: '\n' :: _ => []
  | c :: rest => c :: takeUntilCRLF rest

/-- What `do_CONNECT` does once the full upstream response header block has
been read (AWAITING_UPSTREAM_RESPONSE). -/
structure ConnectDecision where
  clientStatus : Nat
  clientMessage : String
  upstreamClosed : Bool
  tunnelEstablished : Bool
  deriving DecidableEq

/-- The status-line check of `do_CONNECT` (source lines 301-315): if the
first line of the upstream response does not contain `200`, send a 502 to
the client, close the upstream socket and return; otherwise answer
`200 Connection Established` and enter the tunnel. -/
def decideConnectResponse (responseStr : String) : ConnectDecision :=
  if containsSub ("200").data (takeUntilCRLF responseStr.data) then
    { clientStatus := 200, clientMessage := "Connection Established",
      upstreamClosed := false, tunnelEstablished := true }
  else
    { clientStatus := 502, clientMessage := "Upstream proxy rejected CONNECT",
      upstreamClosed := true, tunnelEstablished := false }

/-- State of the TUNNEL_ACTIVE relay loop of `do_CONNECT` (source lines
322-459).  Byte values are naturals; the four log fields record every byte
successfully read from or written to each socket, in order. -/
structure TunnelState where
  clientOpen : Bool
  upstreamOpen : Bool
  inInputsC : Bool
  inInputsU : Bool
  inOutputsC : Bool
  inOutputsU : Bool
  clientBuffer : List Nat
  upstreamBuffer : List Nat
  readFromClient : List Nat
  readFromUpstream : List Nat
  writtenToClient : List Nat
  writtenToUpstream : List Nat
  startTime : Nat
  closeCallsC : Nat
  closeCallsU : Nat
  deriving DecidableEq

/-- One readiness event inside the relay loop: a `recv` result on either
socket (an empty list is end-of-stream), a `send` that accepted `sent`
bytes, or a connection error on either socket. -/
inductive TEvent where
  | readClient (data : List Nat)
  | readUpstream (data : List Nat)
  | writeClient (sent : Nat)
  | writeUpstream (sent : Nat)
  | errClient
  | errUpstream
  deriving DecidableEq

/-- One iteration branch of the relay loop (source lines 364-443), at wall
clock `now`.  Reads of data append to the pending buffer of the opposite
direction and reset `start_time`; end-of-stream closes the socket that
reported it; writes drop the sent part of the pending buffer and do not
touch `start_time`; errors remove and close the failing socket. -/
def tunnelStep (now : Nat) (e : TEvent) (s : TunnelState) : TunnelState :=
  match e with
  | .readClient data =>
    if s.inInputsC then
      if data.isEmpty then
        { s with inInputsC := false, inOutputsC := false, clientOpen := false,
                 closeCallsC := s.closeCallsC + 1 }
      else
        { s with upstreamBuffer := s.upstreamBuffer ++ data,
                 inOutputsU := true,
                 startTime := now,
                 readFromClient := s.readFromClient ++ data }
    else s
  | .readUpstream data =>
    if s.inInputsU then
      if data.isEmpty then
        { s with inInputsU := false, inOutputsU := false, upstreamOpen := false,
                 closeCallsU := s.closeCallsU + 1 }
      else
        { s with clientBuffer := s.clientBuffer ++ data,
                 inOutputsC := true,
                 startTime := now,
                 readFromUpstream := s.readFromUpstream ++ data }
    else s
  | .writeClient sent =>
    if s.inOutputsC && !s.clientBuffer.isEmpty then
      { s with writtenToClient := s.writtenToClient ++ s.clientBuffer.take sent,
               clientBuffer := s.clientBuffer.drop sent,
               inOutputsC := !(s.clientBuffer.drop sent).isEmpty }
    else s
  | .writeUpstream sent =>
    if s.inOutputsU && !s.upstreamBuffer.isEmpty then
      { s with writtenToUpstream := s.writtenToUpstream ++ s.upstreamBuffer.take sent,
               upstreamBuffer := s.upstreamBuffer.drop sent,
               inOutputsU := !(s.upstreamBuffer.drop sent).isEmpty }
    else s
  | .errClient =>
      { s with inInputsC := false, inOutputsC := false, clientOpen := false,
               closeCallsC := s.closeCallsC + 1 }
  | .errUpstream =>
      { s with inInputsU := false, inOutputsU := false, upstreamOpen := false,
               closeCallsU := s.closeCallsU + 1 }

/-- The loop-top timeout test (line 355):
`time.time() - start_time > socket_timeout` with `socket_timeout = 60`. -/
def tunnelTimeoutCheck (now : Nat) (s : TunnelState) : Bool :=
  decide (60 < now - s.startTime)

/-- Tunnel state right after `200 Connection Established` was sent:
both sockets open and monitored for reads, both pending buffers empty, and
`start_time := time.time()` (line 349) taken at `t0`. -/
def initTunnel (t0 : Nat) : TunnelState :=
  { clientOpen := true, upstreamOpen := true, inInputsC := true, inInputsU := true,
    inOutputsC := false, inOutputsU := false, clientBuffer := [], upstreamBuffer := [],
    readFromClient := [], readFromUpstream := [], writtenToClient := [],
    writtenToUpstream := [], startTime := t0, closeCallsC := 0, closeCallsU := 0 }

/-- Run the relay loop over a trace of timestamped events. -/
def runTunnel (t0 : Nat) (trace : List (Nat × TEvent)) : TunnelState :=
  trace.foldl (fun s te => tunnelStep te.1 te.2 s) (initTunnel t0)

/-- The inner `finally` of the tunnel loop (source lines 449-459): close
both sockets unconditionally inside a `try`/bare-`except`, so each close
call is recorded and never raises. -/
def tunnelCleanup (s : TunnelState) : TunnelState :=
  { s with clientOpen := false, upstreamOpen := false,
           inInputsC := false, inInputsU := false,
           inOutputsC := false, inOutputsU := false,
           closeCallsC := s.closeCallsC + 1, closeCallsU := s.closeCallsU + 1 }

/-- The outer `finally` of `do_CONNECT` (source lines 464-470): the
`upstream_socket` variable is bound (and truthy) on every tunnel path, so
it is close-called once more, guarded by `try`/bare-`except`. -/
def doConnectOuterCleanup (s : TunnelState) : TunnelState :=
  { s with upstreamOpen := false, closeCallsU := s.closeCallsU + 1 }

/-- A complete pass through the relay loop and both `finally` blocks. -/
def finishTunnel (t0 : Nat) (trace : List (Nat × TEvent)) : TunnelState :=
  doConnectOuterCleanup (tunnelCleanup (runTunnel t0 trace))

/-- The byte-preservation invariant of the relay: the bytes written to each
side followed by the still-pending buffer are exactly the bytes read from
the other side, in order. -/
def TunnelInv (s : TunnelState) : Prop :=
  s.writtenToUpstream ++ s.upstreamBuffer = s.readFromClient ∧
  s.writtenToClient ++ s.clientBuffer = s.readFromUpstream

/-- Result of `PROXY_PORT` resolution in `LocalProxyRunner.__init__`
(source lines 567-583). -/
inductive PortResolution where
  | ok (port : Int)
  | missingPort
  | invalidPort
  deriving DecidableEq

/-- Port resolution: an unset or empty `PROXY_PORT` raises the missing-port
`EnvironmentError`; otherwise `int(upstream_port_env)` raising `ValueError`
is re-raised as the invalid-port `EnvironmentError`; any successfully
parsed integer is stored without a range check. -/
def resolveUpstreamPort : Option String → PortResolution
  | none => .missingPort
  | some s =>
    if s.isEmpty then .missingPort
    else
      match pythonInt s with
      | some n => .ok n
      | none => .invalidPort

/-- The fields of `LocalProxyRunner` that `stop()` consults: whether
`self.server` and `self.server_thread` are set, and whether the thread is
alive. -/
structure RunnerState where
  serverSet : Bool
  threadSet : Bool
  threadAlive : Bool
  deriving DecidableEq

/-- The externally visible calls `stop()` makes on the server machinery. -/
inductive StopAction where
  | shutdown
  | serverClose
  | joinThread
  deriving DecidableEq

/-- Runner state right after `__init__`: `self.server = None` and
`self.server_thread = None`. -/
def runnerInitState : RunnerState :=
  { serverSet := false, threadSet := false, threadAlive := false }

/-- `LocalProxyRunner.stop` (source lines 715-736).  `raiseAt` models which
call of the `try` block raises (`some 0` = `shutdown`, `some 1` =
`server_close`, anything else = no raise before `join` returns); the
`except Exception` arm swallows the error and the `finally` arm always
clears both references, so `stop` itself returns normally on every path. -/
def stopRunner (raiseAt : Option Nat) (s : RunnerState) : RunnerState × List StopAction :=
  if s.serverSet && s.threadSet && s.threadAlive then
    let acts : List StopAction :=
      match raiseAt with
      | some 0 => [.shutdown]
      | some 1 => [.shutdown, .serverClose]
      | _ => [.shutdown, .serverClose, .joinThread]
    ({ serverSet := false, threadSet := false, threadAlive := s.threadAlive }, acts)
  else (s, [])

/-- A pair in `dictSet m k v` either carries key `k` or comes from `m`. -/
theorem mem_dictSet_key (m : Headers) (k v : String) (p : String × String)
    (hp : p ∈ dictSet m k v) : p.1 = k ∨ p ∈ m := by
  unfold dictSet at hp
  by_cases hk : k ∈ m.map Prod.fst
  · rw [if_pos hk] at hp
    rcases List.mem_map.1 hp with ⟨q, hq, hfq⟩
    by_cases hqk : q.1 = k
    · left
      rw [← hfq]
      simp [hqk]
    · right
      rw [← hfq]
      simpa [hqk] using hq
  · rw [if_neg hk] at hp
    rcases List.mem_append.1 hp with h | h
    · right; exact h
    · left
      have : p = (k, v) := by simpa using h
      rw [this]

/-- The pair `(k, v)` itself always belongs to `dictSet m k v`. -/
theorem self_mem_dictSet (m : Headers) (k v : String) : (k, v) ∈ dictSet m k v := by
  unfold dictSet
  by_cases hk : k ∈ m.map Prod.fst
  · rw [if_pos hk]
    rcases List.mem_map.1 hk with ⟨q, hq, hqk⟩
    exact List.mem_map.2 ⟨q, hq, by simp [hqk]⟩
  · rw [if_neg hk]
    simp

/-- Keys of `dictSet`: unchanged on replacement, extended by `k` on append. -/
theorem keysOf_dictSet (m : Headers) (k v : String) :
    (dictSet m k v).map Prod.fst =
      if k ∈ m.map Prod.fst then m.map Prod.fst else m.map Prod.fst ++ [k] := by
  unfold dictSet
  by_cases hk : k ∈ m.map Prod.fst
  · rw [if_pos hk, if_pos hk, List.map_map]
    have : (Prod.fst ∘ fun p : String × String => if p.1 = k then (k, v) else p) =
        Prod.fst := by
      funext p
      by_cases hpk : p.1 = k <;> simp [hpk]
    rw [this]
  · rw [if_neg hk, if_neg hk]
    simp

/-- `dictSet` preserves key distinctness. -/
theorem nodupKeys_dictSet (m : Headers) (k v : String)
    (h : (m.map Prod.fst).Nodup) : ((dictSet m k v).map Prod.fst).Nodup := by
  rw [keysOf_dictSet]
  by_cases hk : k ∈ m.map Prod.fst
  · rwa [if_pos hk]
  · rw [if_neg hk]
    simp [List.nodup_append, h, hk]

/-- When `k` is absent from the keys of `m`, the in-place replacement map is
the identity on `m`. -/
theorem map_replace_of_not_mem (m : Headers) (k v : String)
    (h : k ∉ m.map Prod.fst) :
    m.map (fun p => if p.1 = k then (k, v) else p) = m := by
  induction m with
  | nil => rfl
  | cons q rest ih =>
      simp only [List.map_cons, List.mem_cons, List.map_cons] at h ⊢
      have hq : ¬(q.1 = k) := by
        intro hqk
        exact h (by simp [hqk])
      have hrest : k ∉ rest.map Prod.fst := by
        intro hr
        exact h (by simp [hr])
      rw [if_neg hq, ih hrest]

/-- `dictSet` on a present key is the in-place replacement map. -/
theorem dictSet_of_mem (m : Headers) (k v : String) (h : k ∈ m.map Prod.fst) :
    dictSet m k v = m.map (fun p => if p.1 = k then (k, v) else p) := by
  unfold dictSet
  rw [if_pos h]

/-- `dictSet` on an absent key appends the new pair. -/
theorem dictSet_of_not_mem (m : Headers) (k v : String) (h : k ∉ m.map Prod.fst) :
    dictSet m k v = m ++ [(k, v)] := by
  unfold dictSet
  rw [if_neg h]

/-- Re-assigning the same key-value pair leaves the dict unchanged. -/
theorem dictSet_dictSet_same (m : Headers) (k v : String) :
    dictSet (dictSet m k v) k v = dictSet m k v := by
  by_cases hk : k ∈ m.map Prod.fst
  · have hmem : k ∈ (dictSet m k v).map Prod.fst := by
      rw [keysOf_dictSet, if_pos hk]
      exact hk
    rw [dictSet_of_mem _ _ _ hmem, dictSet_of_mem _ _ _ hk, List.map_map]
    have : ((fun p : String × String => if p.1 = k then (k, v) else p) ∘
        fun p : String × String => if p.1 = k then (k, v) else p) =
        fun p : String × String => if p.1 = k then (k, v) else p := by
      funext p
      by_cases hpk : p.1 = k <;> simp [hpk]
    rw [this]
  · have h1 : dictSet m k v = m ++ [(k, v)] := dictSet_of_not_mem _ _ _ hk
    have hmem : k ∈ (dictSet m k v).map Prod.fst := by
      rw [h1]
      simp
    rw [dictSet_of_mem _ _ _ hmem, h1, List.map_append,
      map_replace_of_not_mem m k v hk]
    simp

/-- The copy loop never introduces a dropped header name: generalized fold
invariant over an arbitrary accumulator. -/
theorem filterFold_go_not_dropped (l : Headers) :
    ∀ acc, (∀ p ∈ acc, isDroppedHeader p.1 = false) →
      ∀ p ∈ l.foldl
          (fun acc kv => if isDroppedHeader kv.1 then acc else dictSet acc kv.1 kv.2) acc,
        isDroppedHeader p.1 = false := by
  induction l with
  | nil =>
      intro acc hacc p hp
      exact hacc p hp
  | cons kv rest ih =>
      intro acc hacc p hp
      simp only [List.foldl_cons] at hp
      by_cases hd : isDroppedHeader kv.1 = true
      · rw [if_pos hd] at hp
        exact ih acc hacc p hp
      · rw [if_neg hd] at hp
        refine ih _ ?_ p hp
        intro q hq
        rcases mem_dictSet_key _ _ _ _ hq with h1 | h1
        · rw [h1]
          exact Bool.eq_false_iff.2 hd
        · exact hacc q h1

/-- The copy loop keeps the accumulated dict free of duplicate keys. -/
theorem filterFold_go_nodupKeys (l : Headers) :
    ∀ acc, ((acc.map Prod.fst).Nodup) →
      ((l.foldl
          (fun acc kv => if isDroppedHeader kv.1 then acc else dictSet acc kv.1 kv.2)
          acc).map Prod.fst).Nodup := by
  induction l with
  | nil =>
      intro acc hacc
      exact hacc
  | cons kv rest ih =>
      intro acc hacc
      simp only [List.foldl_cons]
      by_cases hd : isDroppedHeader kv.1 = true
      · rw [if_pos hd]
        exact ih acc hacc
      · rw [if_neg hd]
        exact ih _ (nodupKeys_dictSet _ _ _ hacc)

/-- Every pair of the header filter output has a non-dropped name. -/
theorem filterHeaders_not_dropped (path : String) (h : Headers) :
    ∀ p ∈ filterHeaders path h, isDroppedHeader p.1 = false := by
  intro p hp
  unfold filterHeaders at hp
  by_cases hn : urlNetloc path ≠ ""
  · rw [if_pos hn] at hp
    rcases mem_dictSet_key _ _ _ _ hp with h1 | h1
    · rw [h1]
      decide
    · exact filterFold_go_not_dropped h [] (by intro q hq; cases hq) p h1
  · rw [if_neg hn] at hp
    exact filterFold_go_not_dropped h [] (by intro q hq; cases hq) p hp

/-- The header filter output has no duplicate keys. -/
theorem filterHeaders_nodupKeys (path : String) (h : Headers) :
    ((filterHeaders path h).map Prod.fst).Nodup := by
  unfold filterHeaders
  by_cases hn : urlNetloc path ≠ ""
  · rw [if_pos hn]
    exact nodupKeys_dictSet _ _ _ (filterFold_go_nodupKeys h [] List.nodup_nil)
  · rw [if_neg hn]
    exact filterFold_go_nodupKeys h [] List.nodup_nil

/-- Running the copy loop over a dict whose entries all survive the drop
test and whose keys are fresh and distinct just appends the entries. -/
theorem filterFold_go_identity (l : Headers) :
    ∀ acc, (∀ p ∈ l, isDroppedHeader p.1 = false) →
      ((l.map Prod.fst).Nodup) →
      (∀ kk ∈ l.map Prod.fst, kk ∉ acc.map Prod.fst) →
      l.foldl
        (fun acc kv => if isDroppedHeader kv.1 then acc else dictSet acc kv.1 kv.2)
        acc = acc ++ l := by
  induction l with
  | nil =>
      intro acc _ _ _
      simp
  | cons p rest ih =>
      intro acc hnd hnodup hdisj
      simp only [List.foldl_cons]
      have hp : isDroppedHeader p.1 = false := hnd p (by simp)
      rw [if_neg (by simp [hp])]
      have hpk : p.1 ∉ acc.map Prod.fst := hdisj p.1 (by simp)
      have hset : dictSet acc p.1 p.2 = acc ++ [p] := by
        rw [dictSet_of_not_mem _ _ _ hpk]
      rw [hset]
      have hnodup2 : ((rest.map Prod.fst).Nodup) := by
        simp only [List.map_cons, List.nodup_cons] at hnodup
        exact hnodup.2
      have hhead : p.1 ∉ rest.map Prod.fst := by
        simp only [List.map_cons, List.nodup_cons] at hnodup
        exact hnodup.1
      have hdisj2 : ∀ kk ∈ rest.map Prod.fst, kk ∉ (acc ++ [p]).map Prod.fst := by
        intro kk hkk
        simp only [List.map_append, List.mem_append, List.map_cons, List.mem_cons]
        intro hor
        rcases hor with hka | hkp
        · exact hdisj kk (by simp [hkk]) hka
        · rcases hkp with hkp | hkp
          · exact hhead (hkp ▸ hkk)
          · cases hkp
      rw [ih (acc ++ [p]) (fun q hq => hnd q (by simp [hq])) hnodup2 hdisj2]
      simp

/-- The copy loop is the identity on any previous filter output. -/
theorem filterFold_filterHeaders (path : String) (h : Headers) :
    filterFold (filterHeaders path h) = filterHeaders path h := by
  unfold filterFold
  rw [filterFold_go_identity (filterHeaders path h) []
    (filterHeaders_not_dropped path h) (filterHeaders_nodupKeys path h)
    (by intro kk _ hk; cases hk)]
  simp

/-- The relay step preserves the byte-preservation invariant. -/
theorem tunnelStep_inv (now : Nat) (e : TEvent) (s : TunnelState)
    (h : TunnelInv s) : TunnelInv (tunnelStep now e s) := by
  obtain ⟨h1, h2⟩ := h
  cases e with
  | readClient data =>
      by_cases hin : s.inInputsC = true
      · by_cases hd : data.isEmpty = true
        · simp only [tunnelStep, hin, if_true, hd]
          exact ⟨h1, h2⟩
        · simp only [tunnelStep, hin, if_true, hd, if_false, Bool.false_eq_true]
          refine ⟨?_, h2⟩
          simp only [← List.append_assoc, h1]
      · simp only [tunnelStep, hin]
        exact ⟨h1, h2⟩
  | readUpstream data =>
      by_cases hin : s.inInputsU = true
      · by_cases hd : data.isEmpty = true
        · simp only [tunnelStep, hin, if_true, hd]
          exact ⟨h1, h2⟩
        · simp only [tunnelStep, hin, if_true, hd, if_false, Bool.false_eq_true]
          refine ⟨h1, ?_⟩
          simp only [← List.append_assoc, h2]
      · simp only [tunnelStep, hin]
        exact ⟨h1, h2⟩
  | writeClient sent =>
      by_cases hg : (s.inOutputsC && !s.clientBuffer.isEmpty) = true
      · simp only [tunnelStep, hg, if_true]
        refine ⟨h1, ?_⟩
        simp only [List.append_assoc, List.take_append_drop, h2]
      · simp only [tunnelStep, hg]
        exact ⟨h1, h2⟩
  | writeUpstream sent =>
      by_cases hg : (s.inOutputsU && !s.upstreamBuffer.isEmpty) = true
      · simp only [tunnelStep, hg, if_true]
        refine ⟨?_, h2⟩
        simp only [List.append_assoc, List.take_append_drop, h1]
      · simp only [tunnelStep, hg]
        exact ⟨h1, h2⟩
  | errClient =>
      exact ⟨h1, h2⟩
  | errUpstream =>
      exact ⟨h1, h2⟩

/-- The invariant holds after folding any event trace from an invariant
state. -/
theorem foldl_tunnelStep_inv (trace : List (Nat × TEvent)) :
    ∀ s, TunnelInv s →
      TunnelInv (trace.foldl (fun s te => tunnelStep te.1 te.2 s) s) := by
  induction trace with
  | nil =>
      intro s h
      exact h
  | cons te rest ih =>
      intro s h
      exact ih _ (tunnelStep_inv te.1 te.2 s h)

/-- Any reachable relay state satisfies the byte-preservation invariant. -/
theorem runTunnel_inv (t0 : Nat) (trace : List (Nat × TEvent)) :
    TunnelInv (runTunnel t0 trace) := by
  unfold runTunnel
  exact foldl_tunnelStep_inv trace (initTunnel t0) ⟨rfl, rfl⟩

/-- C2: for every inbound header map and every request target URL, the map
returned by the header filter contains no entry whose name equals,
case-insensitively, any of the hop-by-hop names (connection, keep-alive,
proxy-authenticate, proxy-authorization, te, trailers, transfer-encoding,
upgrade) or identity-revealing names (x-forwarded-for, x-forwarded-host,
x-forwarded-proto, x-real-ip, via, forwarded). -/
theorem header_filter_strips_hop_and_identity (path : String) (h : Headers)
    (p : String × String) (hp : p ∈ filterHeaders path h) :
    pyLower p.1 ∉ hopByHopHeaders ∧ pyLower p.1 ∉ ipRevealingHeaders := by
  have hd := filterHeaders_not_dropped path h p hp
  unfold isDroppedHeader at hd
  simp only [Bool.or_eq_false_iff, decide_eq_false_iff_not] at hd
  exact hd

/-- Witness for C2 at a concrete header map and URL: the retained entry
`Accept` is not any of the dropped names. -/
theorem header_filter_strips_hop_and_identity_witness :
    pyLower "Accept" ∉ hopByHopHeaders ∧ pyLower "Accept" ∉ ipRevealingHeaders :=
  header_filter_strips_hop_and_identity "http://example.com/index.html"
    [("Accept", "text/html"), ("Connection", "close"), ("X-Forwarded-For", "10.0.0.1")]
    ("Accept", "text/html") (by decide)

/-- C7: the header filter is idempotent; applying it to its own output with
the same request target URL returns that output unchanged. -/
theorem header_filter_idempotent (path : String) (h : Headers) :
    filterHeaders path (filterHeaders path h) = filterHeaders path h := by
  by_cases hn : urlNetloc path ≠ ""
  · have hout : filterHeaders path h = dictSet (filterFold h) "Host" (urlNetloc path) := by
      simp only [filterHeaders]
      rw [if_pos hn]
    calc filterHeaders path (filterHeaders path h)
        = dictSet (filterFold (filterHeaders path h)) "Host" (urlNetloc path) := by
          simp only [filterHeaders]
          rw [if_pos hn]
      _ = dictSet (filterHeaders path h) "Host" (urlNetloc path) := by
          rw [filterFold_filterHeaders]
      _ = dictSet (dictSet (filterFold h) "Host" (urlNetloc path)) "Host"
            (urlNetloc path) := by rw [← hout]
      _ = dictSet (filterFold h) "Host" (urlNetloc path) := dictSet_dictSet_same _ _ _
      _ = filterHeaders path h := hout.symm
  · calc filterHeaders path (filterHeaders path h)
        = filterFold (filterHeaders path h) := by
          simp only [filterHeaders]
          rw [if_neg hn]
      _ = filterHeaders path h := filterFold_filterHeaders path h

/-- C4: in AWAITING_UPSTREAM_RESPONSE, whenever the first line of the
upstream response does not contain the substring 200, the client is sent a
502 (upstream proxy rejected CONNECT), the upstream socket is closed, and
the tunnel is never established. -/
theorem connect_rejected_when_no_200 (responseStr : String)
    (h : containsSub ("200").data (takeUntilCRLF responseStr.data) = false) :
    decideConnectResponse responseStr =
      { clientStatus := 502, clientMessage := "Upstream proxy rejected CONNECT",
        upstreamClosed := true, tunnelEstablished := false } := by
  unfold decideConnectResponse
  rw [h]
  simp

/-- Witness for C4: a concrete 407 Proxy Authentication Required reply is
answered with a 502 and no tunnel. -/
theorem connect_rejected_when_no_200_witness :
    decideConnectResponse
        "HTTP/1.1 407 Proxy Authentication Required\r\nProxy-Authenticate: Basic realm=x\r\n\r\n" =
      { clientStatus := 502, clientMessage := "Upstream proxy rejected CONNECT",
        upstreamClosed := true, tunnelEstablished := false } :=
  connect_rejected_when_no_200 _ (by decide)

/-- C5 counterexample: the port strings 99999 and -1 are outside the range
of an unsigned 16-bit integer, yet runner construction succeeds and stores
them, instead of failing as the claim requires; the code only re-raises the
`ValueError` of `int(...)`, it never range-checks. -/
theorem port_range_unchecked_counterexample :
    resolveUpstreamPort (some "99999") = PortResolution.ok 99999 ∧
    resolveUpstreamPort (some "-1") = PortResolution.ok (-1) ∧
    ¬((99999 : Int) ≤ 65535) ∧ ((-1 : Int) < 1) := by
  refine ⟨by decide, by decide, by decide, by decide⟩

/-- C5 (amended): runner construction fails exactly when the port input is
missing, empty, or not parseable as a Python integer of any size or sign;
every successfully parsed integer is accepted without a uint16 range
check. -/
theorem port_resolution_parses_any_int (s : String) :
    (s.isEmpty = false → ∀ n : Int, pythonInt s = some n →
      resolveUpstreamPort (some s) = .ok n) ∧
    (s.isEmpty = false → pythonInt s = none →
      resolveUpstreamPort (some s) = .invalidPort) ∧
    (s.isEmpty = true → resolveUpstreamPort (some s) = .missingPort) ∧
    resolveUpstreamPort none = .missingPort := by
  refine ⟨?_, ?_, ?_, rfl⟩
  · intro hs n hn
    simp [resolveUpstreamPort, hs, hn]
  · intro hs hn
    simp [resolveUpstreamPort, hs, hn]
  · intro hs
    simp [resolveUpstreamPort, hs]

/-- Witness for C5 (amended) at the concrete out-of-range input 99999. -/
theorem port_resolution_parses_any_int_witness :
    resolveUpstreamPort (some "99999") = PortResolution.ok 99999 :=
  (port_resolution_parses_any_int "99999").1 (by decide) 99999 (by decide)

/-- C9 counterexample: a request whose Content-Length is unparseable but
whose target URL is relative gets a 400 error response from the URL check
before the `int(...)` call is reached, so the claim quantified over every
request with an unparseable Content-Length fails: this request does receive
an HTTP error response and nothing is raised. -/
theorem content_length_raise_counterexample :
    forwardRequestPhase1 "/relative/path" [("Content-Length", "abc")] =
      ForwardOutcome.errorWritten 400 ∧
    ForwardOutcome.errorWritten 400 ≠ ForwardOutcome.raised := by
  refine ⟨by decide, by decide⟩

/-- C9 (amended): for every request whose target URL passes the
absolute-URL validation and whose Content-Length value is present but not
parseable as an integer, the bare `int(...)` call at line 136 raises
outside every try block, so the handler writes no HTTP error response. -/
theorem content_length_unparseable_raises (path : String) (hs : Headers)
    (v : String) (h1 : ¬(urlScheme path = "" ∨ urlNetloc path = ""))
    (h2 : headersGetCI hs "Content-Length" = some v)
    (h3 : pythonInt v = none) :
    forwardRequestPhase1 path hs = ForwardOutcome.raised := by
  unfold forwardRequestPhase1
  rw [if_neg h1, h2]
  simp [h3]

/-- Witness for C9 (amended) at a concrete absolute-URL request with
Content-Length abc. -/
theorem content_length_unparseable_raises_witness :
    forwardRequestPhase1 "http://example.com/a" [("Content-Length", "abc")] =
      ForwardOutcome.raised :=
  content_length_unparseable_raises "http://example.com/a"
    [("Content-Length", "abc")] "abc" (by decide) (by decide) (by decide)

/-- C10: `stop()` is idempotent and safe when the server is not running.
Calling it on the fresh post-init state performs no actions and returns
normally; any second call immediately after a first `stop()` performs no
actions and leaves the state unchanged; and every `stop()` that entered the
shutdown path clears both the server and the thread reference even when the
modelled `shutdown`, `server_close` or `join` call raised (the `except`
swallows the error and the `finally` clears the references). -/
theorem stop_idempotent_and_safe (r1 r2 : Option Nat) (s : RunnerState) :
    stopRunner r2 (stopRunner r1 s).1 = ((stopRunner r1 s).1, []) ∧
    stopRunner r1 runnerInitState = (runnerInitState, []) ∧
    (s.serverSet = true → s.threadSet = true → s.threadAlive = true →
      (stopRunner r1 s).1.serverSet = false ∧ (stopRunner r1 s).1.threadSet = false) := by
  refine ⟨?_, ?_, ?_⟩
  · by_cases hg : (s.serverSet && s.threadSet && s.threadAlive) = true
    · simp [stopRunner, hg]
    · simp [stopRunner, hg]
  · simp [stopRunner, runnerInitState]
  · intro h1 h2 h3
    simp [stopRunner, h1, h2, h3]

/-- Witness for C10: a running state with a raising `shutdown` still ends
with cleared references. -/
theorem stop_idempotent_and_safe_witness :
    (stopRunner (some 0) { serverSet := true, threadSet := true, threadAlive := true }).1.serverSet = false ∧
    (stopRunner (some 0) { serverSet := true, threadSet := true, threadAlive := true }).1.threadSet = false :=
  (stop_idempotent_and_safe (some 0) none
    { serverSet := true, threadSet := true, threadAlive := true }).2.2 rfl rfl rfl

/-- C1: the TUNNEL_ACTIVE relay is byte-for-byte and order-preserving in
both directions.  After any event trace, the bytes written to the upstream
socket followed by the pending buffer equal the bytes read from the client
in receipt order (so the written bytes are a prefix of the read bytes), and
symmetrically for the other direction; when a direction has drained (its
pending buffer is empty) the written bytes equal the read bytes exactly. -/
theorem tunnel_relay_byte_for_byte (t0 : Nat) (trace : List (Nat × TEvent)) :
    (runTunnel t0 trace).writtenToUpstream ++ (runTunnel t0 trace).upstreamBuffer =
      (runTunnel t0 trace).readFromClient ∧
    (runTunnel t0 trace).writtenToClient ++ (runTunnel t0 trace).clientBuffer =
      (runTunnel t0 trace).readFromUpstream ∧
    ((runTunnel t0 trace).upstreamBuffer = [] →
      (runTunnel t0 trace).writtenToUpstream = (runTunnel t0 trace).readFromClient) ∧
    ((runTunnel t0 trace).clientBuffer = [] →
      (runTunnel t0 trace).writtenToClient = (runTunnel t0 trace).readFromUpstream) := by
  obtain ⟨h1, h2⟩ := runTunnel_inv t0 trace
  refine ⟨h1, h2, ?_, ?_⟩
  · intro hb
    rw [← h1, hb, List.append_nil]
  · intro hb
    rw [← h2, hb, List.append_nil]

/-- Witness for C1: a concrete drained trace where the client sent two
bytes and the upstream received exactly those two bytes. -/
theorem tunnel_relay_byte_for_byte_witness :
    (runTunnel 0 [(1, TEvent.readClient [10, 20]), (2, TEvent.writeUpstream 2)]).writtenToUpstream =
      (runTunnel 0 [(1, TEvent.readClient [10, 20]), (2, TEvent.writeUpstream 2)]).readFromClient :=
  (tunnel_relay_byte_for_byte 0
    [(1, TEvent.readClient [10, 20]), (2, TEvent.writeUpstream 2)]).2.2.1 (by decide)

/-- C3 counterexample: a successful write does not reset the idle timer.
At time 0 the upstream sends one byte (timer reset to 0); at time 100 the
pending byte is successfully written to the client, yet `start_time` stays
0 instead of 100, and the very next loop-top check at time 101 times the
tunnel out despite the write at time 100. -/
theorem tunnel_write_timer_counterexample :
    (runTunnel 0 [(0, TEvent.readUpstream [7]), (100, TEvent.writeClient 1)]).writtenToClient =
      [7] ∧
    (runTunnel 0 [(0, TEvent.readUpstream [7]), (100, TEvent.writeClient 1)]).startTime = 0 ∧
    (0 : Nat) ≠ 100 ∧
    tunnelTimeoutCheck 101
      (runTunnel 0 [(0, TEvent.readUpstream [7]), (100, TEvent.writeClient 1)]) = true := by
  refine ⟨by decide, by decide, by decide, by decide⟩

/-- C3 (amended): the 60-second idle timer is measured from the most recent
successful read of data on either side; successful reads reset
`start_time`, successful writes never touch it, the loop-top check fires
exactly when more than 60 seconds have passed since the last reset, and the
cleanup run after the loop exits closes both sockets. -/
theorem tunnel_idle_timer_semantics (now : Nat) (s : TunnelState) :
    (∀ data : List Nat, data.isEmpty = false → s.inInputsC = true →
      (tunnelStep now (TEvent.readClient data) s).startTime = now) ∧
    (∀ data : List Nat, data.isEmpty = false → s.inInputsU = true →
      (tunnelStep now (TEvent.readUpstream data) s).startTime = now) ∧
    (∀ n : Nat, (tunnelStep now (TEvent.writeClient n) s).startTime = s.startTime) ∧
    (∀ n : Nat, (tunnelStep now (TEvent.writeUpstream n) s).startTime = s.startTime) ∧
    (tunnelTimeoutCheck now s = true ↔ 60 < now - s.startTime) ∧
    (doConnectOuterCleanup (tunnelCleanup s)).clientOpen = false ∧
    (doConnectOuterCleanup (tunnelCleanup s)).upstreamOpen = false := by
  refine ⟨?_, ?_, ?_, ?_, ?_, rfl, rfl⟩
  · intro data hd hin
    simp [tunnelStep, hin, hd]
  · intro data hd hin
    simp [tunnelStep, hin, hd]
  · intro n
    by_cases hg : (s.inOutputsC && !s.clientBuffer.isEmpty) = true
    · simp [tunnelStep, hg]
    · simp [tunnelStep, hg]
  · intro n
    by_cases hg : (s.inOutputsU && !s.upstreamBuffer.isEmpty) = true
    · simp [tunnelStep, hg]
    · simp [tunnelStep, hg]
  · simp [tunnelTimeoutCheck]

/-- Witness for C3 (amended): at concrete states, a read resets the timer
to the current time, a write leaves it at 0, and the check fires at 61. -/
theorem tunnel_idle_timer_semantics_witness :
    (tunnelStep 100 (TEvent.readClient [7]) (initTunnel 0)).startTime = 100 ∧
    (tunnelStep 100 (TEvent.writeClient 1) (initTunnel 0)).startTime = 0 ∧
    tunnelTimeoutCheck 61 (initTunnel 0) = true := by
  refine ⟨(tunnel_idle_timer_semantics 100 (initTunnel 0)).1 [7] (by decide) (by decide),
    ?_, ?_⟩
  · exact (tunnel_idle_timer_semantics 100 (initTunnel 0)).2.2.1 1
  · exact (tunnel_idle_timer_semantics 61 (initTunnel 0)).2.2.2.2.1.mpr (by decide)

/-- C6 counterexample: on the graceful path where the client sends
end-of-stream, the client socket is close-called once in the loop and again
by the inner `finally`, and the upstream socket is close-called by the
inner `finally` and again by the outer `finally`: both sockets are closed
twice, not exactly once. -/
theorem tunnel_close_exactly_once_counterexample :
    (finishTunnel 0 [(5, TEvent.readClient [])]).closeCallsC = 2 ∧
    (finishTunnel 0 [(5, TEvent.readClient [])]).closeCallsU = 2 ∧
    (2 : Nat) ≠ 1 := by
  refine ⟨by decide, by decide, by decide⟩

/-- C6 (amended): on every path through the relay loop and its cleanup,
each socket is close-called at least once (possibly more than once) and
both end up closed; each close call is wrapped in `try`/bare-`except`, so a
close on an already-closed socket is a swallowed no-op and the cleanup
itself never raises (the cleanup is modelled as a total function). -/
theorem tunnel_close_at_least_once (t0 : Nat) (trace : List (Nat × TEvent)) :
    1 ≤ (finishTunnel t0 trace).closeCallsC ∧
    1 ≤ (finishTunnel t0 trace).closeCallsU ∧
    (finishTunnel t0 trace).clientOpen = false ∧
    (finishTunnel t0 trace).upstreamOpen = false := by
  simp only [finishTunnel, doConnectOuterCleanup, tunnelCleanup]
  refine ⟨?_, ?_, trivial, trivial⟩ <;> omega

/-- C8: an upstream-bound `Proxy-Authorization` header is produced iff both
the upstream username and password are set and non-empty.  When the
password is not truthy: the plain-HTTP outgoing headers are exactly the
filtered headers with no `Proxy-Authorization` entry (any client-sent one
was stripped case-insensitively), the upstream CONNECT request equals the
credential-less one, and the warning fires exactly when the username alone
is truthy.  When both are truthy, the header is present in the outgoing
header map. -/
theorem upstream_auth_header_iff (user pwd : Option String) (path : String)
    (hs : Headers) (thost : String) (tport : Int) :
    ((getUpstreamAuthHeader user pwd).isSome = true ↔
      (pyTruthy user = true ∧ pyTruthy pwd = true)) ∧
    (pyTruthy pwd = false →
      forwardOutgoingHeaders path hs user pwd = filterHeaders path hs ∧
      (∀ p ∈ forwardOutgoingHeaders path hs user pwd,
        pyLower p.1 ≠ "proxy-authorization") ∧
      buildConnectRequest thost tport user pwd =
        buildConnectRequest thost tport none none ∧
      upstreamAuthWarning user pwd = pyTruthy user) ∧
    (pyTruthy user = true → pyTruthy pwd = true →
      ∃ a, getUpstreamAuthHeader user pwd = some a ∧
        ("Proxy-Authorization", a) ∈ forwardOutgoingHeaders path hs user pwd) := by
  refine ⟨?_, ?_, ?_⟩
  · by_cases hu : pyTruthy user = true <;> by_cases hp : pyTruthy pwd = true <;>
      simp [getUpstreamAuthHeader, hu, hp]
  · intro hpw
    have hnone : getUpstreamAuthHeader user pwd = none := by
      simp [getUpstreamAuthHeader, hpw]
    have hfwd : forwardOutgoingHeaders path hs user pwd = filterHeaders path hs := by
      simp [forwardOutgoingHeaders, hnone]
    refine ⟨hfwd, ?_, ?_, ?_⟩
    · intro p hp heq
      rw [hfwd] at hp
      have hd := filterHeaders_not_dropped path hs p hp
      unfold isDroppedHeader at hd
      simp only [Bool.or_eq_false_iff, decide_eq_false_iff_not] at hd
      exact hd.1 (heq ▸ (by decide : "proxy-authorization" ∈ hopByHopHeaders))
    · have hnone2 : getUpstreamAuthHeader none none = none := by
        simp [getUpstreamAuthHeader, pyTruthy]
      simp [buildConnectRequest, hnone, hnone2]
    · simp [upstreamAuthWarning, hpw]
  · intro hu hp
    have hauth : getUpstreamAuthHeader user pwd =
        some ("Basic " ++
          String.mk (b64Encode (utf8Encode ((user.getD "") ++ ":" ++ (pwd.getD ""))))) := by
      simp [getUpstreamAuthHeader, hu, hp]
    refine ⟨_, hauth, ?_⟩
    simp only [forwardOutgoingHeaders, hauth]
    exact self_mem_dictSet _ _ _

/-- Witness for C8: with a username but no password, the outgoing headers
of a concrete request carry no authentication entry, and with both
credentials present the header exists. -/
theorem upstream_auth_header_iff_witness :
    forwardOutgoingHeaders "http://example.com/" [("Accept", "text/html")]
        (some "u") none =
      filterHeaders "http://example.com/" [("Accept", "text/html")] :=
  ((upstream_auth_header_iff (some "u") none "http://example.com/"
    [("Accept", "text/html")] "target.example" 443).2.1 rfl).1
